import Mathlib

/-!
Shallow embedding of the kodzero-client-sdk 401 auto-refresh core:
the `Kodzero` class (request/response middleware, `withRetry`),
`TokensManagerClass`, the email auth strategy's `refresh`, and `buildURL`.
Stateful TypeScript is modelled by explicit state passing; async control
flow by parameterizing over the settle outcomes of the awaited operations;
thrown JS errors by `Except`.
-/

namespace Kodzero

/-- Token store (`src/auth/tokens.ts`, class `TokensManagerClass`):
holds the access and refresh tokens, both empty string by default. -/
structure TokensManagerClass where
  access : String
  refresh : String
deriving Repr, DecidableEq

/-- `hasAccess`: JS `this.access && this.access !== ''`, truthy iff non-empty. -/
def TokensManagerClass.hasAccess (t : TokensManagerClass) : Bool :=
  t.access != ""

/-- `hasRefresh`: JS `this.refresh && this.refresh !== ''`, truthy iff non-empty. -/
def TokensManagerClass.hasRefresh (t : TokensManagerClass) : Bool :=
  t.refresh != ""

/-- `setAccess(token)`: replaces the access token only. -/
def TokensManagerClass.setAccess (t : TokensManagerClass) (token : String) :
    TokensManagerClass :=
  { t with access := token }

/-- `setRefresh(token)`: replaces the refresh token only. -/
def TokensManagerClass.setRefresh (t : TokensManagerClass) (token : String) :
    TokensManagerClass :=
  { t with refresh := token }

/-- `clear()`: empties both tokens. -/
def TokensManagerClass.clear (_t : TokensManagerClass) : TokensManagerClass :=
  { access := "", refresh := "" }

/-- `KodzeroApiError` (`src/errors/KodzeroApiError.ts`): carries the request
url, HTTP status code and details of a failed API response. -/
structure KodzeroApiError where
  url : String
  statusCode : Nat
  message : String
  details : String
deriving Repr, DecidableEq

/-- A thrown JS value: either a `KodzeroApiError` (recognised by
`instanceof` in `withRetry`) or any other error (e.g. a network
`TypeError` from `fetch`). -/
inductive JsError where
  | api (e : KodzeroApiError)
  | other (msg : String)
deriving Repr, DecidableEq

/-- JS plain-object string map (used for `req.headers` and `req.params`):
an association list with unique keys kept in insertion order. -/
abbrev JsMap := List (String × String)

/-- Property read `m[k]`: the value at the first (only) binding of `k`. -/
def JsMap.get (m : JsMap) (k : String) : Option String :=
  match m with
  | [] => none
  | (k', v') :: rest => if k' = k then some v' else JsMap.get rest k

/-- Property write `m[k] = v`: replace the binding in place if the key
exists, otherwise append a new binding (JS object assignment). -/
def JsMap.set (m : JsMap) (k v : String) : JsMap :=
  match m with
  | [] => [(k, v)]
  | (k', v') :: rest =>
      if k' = k then (k, v) :: rest else (k', v') :: JsMap.set rest k v

/-- The request body slot `req.data`: `null`/`undefined`, a string, or a
non-string JSON value carried by its `JSON.stringify` image. -/
inductive ReqData where
  | jnull
  | jstr (s : String)
  | jobj (stringified : String)
deriving Repr, DecidableEq

/-- Serialisation of a body for the replay `fetch`: a string is sent as
is, any other value is `JSON.stringify`-ed (part_004 lines 177-179). -/
def ReqData.stringify : ReqData → String
  | .jnull => "null"
  | .jstr s => s
  | .jobj r => r

/-- An outgoing fluid-fetch request as seen by the request middleware:
`method` empty string models a falsy/absent method. -/
structure Request where
  method : String
  url : String
  headers : JsMap
  data : ReqData
  params : JsMap
deriving Repr, DecidableEq

/-- The captured `_lastRequestConfig` snapshot (part_004 line 72). -/
structure RequestConfig where
  method : String
  url : String
  headers : JsMap
  data : ReqData
  params : JsMap
deriving Repr, DecidableEq

/-- An inbound response as seen by the response middleware. `url` is
`none` when `response.url` is not a string (part_004 line 131 guards
this); `body` is an opaque payload distinguishing responses. -/
structure Response where
  status : Nat
  url : Option String
  body : String
deriving Repr, DecidableEq

/-- `typeof response.url === 'string' ? response.url : ''` (line 131). -/
def Response.urlOrEmpty (r : Response) : String :=
  match r.url with
  | some s => s
  | none => ""

/-- Helper for `collapseSlashes`: drops a slash that follows a slash. -/
def collapseSlashesGo (prev : Char) : List Char → List Char
  | [] => []
  | c :: rest =>
      if prev = '/' ∧ c = '/' then collapseSlashesGo prev rest
      else c :: collapseSlashesGo c rest

/-- Collapse every run of consecutive slashes to a single slash:
the `.replace(/\/+/g, '/')` step of `buildURL`. -/
def collapseSlashes : List Char → List Char
  | [] => []
  | c :: rest => c :: collapseSlashesGo c rest

/-- Restore the protocol separator: the `.replace(':/', '://')` step of
`buildURL` (a non-global JS replace: first occurrence only). -/
def restoreProtocol : List Char → List Char
  | [] => []
  | ':' :: '/' :: rest => ':' :: '/' :: '/' :: rest
  | c :: rest => c :: restoreProtocol rest

/-- `buildURL(baseUrl, collection, id?)` (`src/utils/buildURL.ts`):
joins the segments with slashes, collapses duplicate slashes, restores
the protocol separator. `id` is appended only when truthy (non-empty). -/
def buildURL (baseUrl collection : String) (id : Option String) : String :=
  let url := baseUrl ++ "/" ++ collection
  let url :=
    match id with
    | some i => if i ≠ "" then url ++ "/" ++ i else url
    | none => url
  String.mk (restoreProtocol (collapseSlashes url.data))

/-- Substring occurrence on character lists (helper for `includesSub`). -/
def listIncludes (pat : List Char) : List Char → Bool
  | [] => pat.isEmpty
  | c :: rest => List.isPrefixOf pat (c :: rest) || listIncludes pat rest

/-- JS `s.includes(pat)`: does `pat` occur as a contiguous substring of
`s`? Used by the no-loop guard `url.includes('/refresh')` (line 132). -/
def includesSub (s pat : String) : Bool :=
  listIncludes pat.data s.data

/-! ## Request middleware (part_004 lines 86-101) -/

/-- Result of one run of the request middleware: the (possibly mutated)
request that continues down the pipeline, and the snapshot written into
`_lastRequestConfig`. -/
structure RequestHookResult where
  req : Request
  captured : RequestConfig
deriving Repr, DecidableEq

/-- The request-interception hook registered in the `Kodzero` constructor:
attaches `Authorization: Bearer <access>` when an access token is truthy,
then unconditionally captures the request config (method defaulting to
`GET`, url, a copy of the now-current headers, `data ?? null`, a copy of
params) for potential replay. Returns the request otherwise unchanged. -/
def requestHook (access : String) (req : Request) : RequestHookResult :=
  let req :=
    if access != "" then
      { req with headers := JsMap.set req.headers "Authorization" ("Bearer " ++ access) }
    else req
  { req := req
    captured :=
      { method := if req.method = "" then "GET" else req.method
        url := req.url
        headers := req.headers
        data := req.data
        params := req.params } }

/-! ## Email auth refresh (src/auth/email.ts, `refresh`) -/

/-- The JSON payload of the refresh endpoint's response, as inspected by
`refresh`: a truthy `ok` flag and an optional `tokens` object whose
`access` field is truthy iff non-empty. -/
structure RefreshJson where
  ok : Bool
  tokens : Option String
deriving Repr, DecidableEq

/-- Settle outcome of the network half of `auth.refresh()`: either some
stage threw (`_handleApiError` on a non-2xx response, or a transport
error), or the response parsed to a `RefreshJson`. -/
inductive RefreshResult where
  | throw (e : JsError)
  | json (j : RefreshJson)
deriving Repr, DecidableEq

/-- `KodzeroAuthEmail.refresh` modulo the network call: given the settle
outcome of the POST to `<host>/auth/password/refresh`, either rethrows,
or sets the access token when `json.ok && json.tokens && json.tokens.access`
are all truthy and returns `json.ok`. The refresh token is never written. -/
def emailRefresh (t : TokensManagerClass) (r : RefreshResult) :
    Except JsError (TokensManagerClass × Bool) :=
  match r with
  | .throw e => .error e
  | .json j =>
      let t :=
        if j.ok then
          match j.tokens with
          | some a => if a != "" then t.setAccess a else t
          | none => t
        else t
      .ok (t, j.ok)

/-- The URL `auth.refresh()` posts to: `buildURL(host, collection + '/refresh')`
with the email strategy's fixed collection `auth/password`. -/
def refreshEndpointUrl (host : String) : String :=
  buildURL host ("auth/password" ++ "/refresh") none

/-! ## Response middleware (part_004 lines 123-192), sequential model

One activation of the auto-refresh response middleware on a single
response, run to completion with no interleaving. The settle outcome of
the awaited refresh promise and the replay transport are parameters. -/

/-- Mutable fields of a `Kodzero` instance touched by the middleware. -/
structure GuardState where
  tokens : TokensManagerClass
  refreshPromise : Option Nat
  lastRequestConfig : Option RequestConfig
  onRefreshCount : Nat
  onRefreshFailureCount : Nat
deriving Repr, DecidableEq

/-- The arguments handed to the native `fetch` used for replay. -/
structure ReplayCall where
  url : String
  method : String
  headers : JsMap
  body : Option String
deriving Repr, DecidableEq

/-- What one activation of the response middleware produced: the response
returned to the caller, the instance state afterwards, whether this
activation invoked `auth.refresh()` itself, and the replay `fetch` call
it issued, if any. -/
structure MwOutcome where
  result : Response
  state : GuardState
  refreshCalled : Bool
  replay : Option ReplayCall
deriving Repr, DecidableEq

/-- The JS builtin `encodeURIComponent` is external to this repository
and no claim inspects the encoded form, so it is modelled as the
identity encoding. -/
def encodeURIComponentModel (s : String) : String := s

/-- Query string built for the replay URL (part_004 lines 161-163):
percent-encoded `k=v` pairs joined by `&`. -/
def buildQueryString (params : JsMap) : String :=
  String.intercalate "&"
    (params.map (fun p => encodeURIComponentModel p.1 ++ "=" ++ encodeURIComponentModel p.2))

/-- The replay `fetch` call built from a captured config and the current
access token (part_004 lines 153-180): headers are the snapshot's with
`Authorization` overwritten to the fresh bearer token; the URL gets the
snapshot's params appended as a query string; a body is attached only
for non-GET/HEAD methods with non-null data, stringified if needed. -/
def replayCallOf (cfg : RequestConfig) (access : String) : ReplayCall :=
  let replayHeaders := JsMap.set cfg.headers "Authorization" ("Bearer " ++ access)
  let replayUrl :=
    if cfg.params ≠ [] then cfg.url ++ "?" ++ buildQueryString cfg.params else cfg.url
  let methodUp := cfg.method.toUpper
  { url := replayUrl
    method := cfg.method
    headers := replayHeaders
    body :=
      if methodUp ≠ "GET" ∧ methodUp ≠ "HEAD" ∧ cfg.data ≠ .jnull then
        some cfg.data.stringify
      else none }

/-- The JSON body of the refresh POST, `\x7b refresh: token \x7d`,
carried in its stringified form. -/
def refreshBody (token : String) : ReqData :=
  .jobj ("\x7b\"refresh\":\"" ++ token ++ "\"\x7d")

/-- The request issued by `auth.refresh()` through the intercepted
client: a POST to the refresh endpoint with a JSON content type. -/
def refreshRequest (host refreshToken : String) : Request :=
  { method := "POST"
    url := refreshEndpointUrl host
    headers := [("Content-Type", "application/json")]
    data := refreshBody refreshToken
    params := [] }

/-- One sequential activation of the auto-refresh response middleware.
Guards: non-401, missing refresh token, and refresh-endpoint URLs pass
through. Otherwise: snapshot `_lastRequestConfig`; invoke `auth.refresh()`
if no refresh promise is pending (which also runs the request middleware
on the refresh POST, clobbering the slot) or await the pending one; on
rejection fire `onRefreshFailure` and return the original response; on
resolution fire `onRefresh`, then replay the snapshot with the fresh
token via `fetchFn`, returning the original response if the snapshot is
absent or the replay throws. The promise slot is cleared either way. -/
def autoRefreshHandler (host : String) (st : GuardState) (resp : Response)
    (refreshResult : RefreshResult)
    (fetchFn : ReplayCall → Except JsError Response) : MwOutcome :=
  if resp.status ≠ 401 then ⟨resp, st, false, none⟩
  else if !st.tokens.hasRefresh then ⟨resp, st, false, none⟩
  else if includesSub resp.urlOrEmpty "/refresh" then ⟨resp, st, false, none⟩
  else
    let requestConfig := st.lastRequestConfig
    let refreshCalled := st.refreshPromise.isNone
    let st :=
      if refreshCalled then
        let hk := requestHook st.tokens.access (refreshRequest host st.tokens.refresh)
        { st with lastRequestConfig := some hk.captured }
      else st
    let settle : Except JsError TokensManagerClass :=
      if refreshCalled then (emailRefresh st.tokens refreshResult).map (fun p => p.1)
      else
        match refreshResult with
        | .throw e => .error e
        | .json _ => .ok st.tokens
    match settle with
    | .error _ =>
        ⟨resp,
          { st with refreshPromise := none
                    onRefreshFailureCount := st.onRefreshFailureCount + 1 },
          refreshCalled, none⟩
    | .ok tokens' =>
        let st :=
          { st with tokens := tokens'
                    refreshPromise := none
                    onRefreshCount := st.onRefreshCount + 1 }
        match requestConfig with
        | none => ⟨resp, st, refreshCalled, none⟩
        | some cfg =>
            let rc := replayCallOf cfg st.tokens.access
            match fetchFn rc with
            | .ok r => ⟨r, st, refreshCalled, some rc⟩
            | .error _ => ⟨resp, st, refreshCalled, some rc⟩

/-! ## Manual retry wrapper (part_004 lines 205-224) -/

/-- Result of one `withRetry(fn)` call: the value returned or error
thrown, how many times `fn` was invoked, whether `auth.refresh()` was
invoked directly, and the token state afterwards. -/
structure WithRetryOutcome (T : Type) where
  result : Except JsError T
  fnCalls : Nat
  refreshCalled : Bool
  tokens : TokensManagerClass

/-- The guard of `withRetry`'s catch block (part_004 lines 209-214):
the caught error is a `KodzeroApiError` with status 401, auth is
configured, and a refresh token is held. -/
def retryCondition (tokens : TokensManagerClass) (authExists : Bool)
    (e : JsError) : Bool :=
  let is401 :=
    match e with
    | .api a => a.statusCode == 401
    | .other _ => false
  is401 && authExists && tokens.hasRefresh

/-- `withRetry(fn)`: run `fn`; on a `KodzeroApiError` with status 401,
with auth configured and a refresh token held, await the pending refresh
promise (its rejection swallowed by the empty catch) or invoke
`auth.refresh()` directly (its rejection propagates), then re-invoke
`fn` exactly once; any other error propagates unchanged. `fn`'s
invocation outcomes are given as `fn1`, `fn2`; `refreshResult` is the
settle outcome of a directly invoked refresh. -/
def withRetry {T : Type} (tokens : TokensManagerClass) (authExists : Bool)
    (pendingRefresh : Bool) (fn1 fn2 : Except JsError T)
    (refreshResult : RefreshResult) : WithRetryOutcome T :=
  match fn1 with
  | .ok v => ⟨.ok v, 1, false, tokens⟩
  | .error e =>
      if retryCondition tokens authExists e then
        if pendingRefresh then ⟨fn2, 2, false, tokens⟩
        else
          match emailRefresh tokens refreshResult with
          | .error e2 => ⟨.error e2, 1, true, tokens⟩
          | .ok (tokens', _) => ⟨fn2, 2, true, tokens'⟩
      else ⟨.error e, 1, false, tokens⟩

/-! ## Concurrent batch model (part_004 lines 123-192 under cooperative
scheduling)

JS runs each middleware activation synchronously up to its first `await`.
For a batch of concurrent 401s the relevant schedule is: every
activation runs its synchronous prefix (`respEnter`, source lines
125-142 up to `await this._refreshPromise`), then the single in-flight
refresh settles (`settleBatchRefresh`), then each awaiting activation
resumes (`respResume`, lines 143-191). The replay `fetch` touches no
shared refresh state, so a resumed activation is run to completion. -/

/-- Instance state shared by all concurrently outstanding activations,
with instrumentation: `refreshStarts` counts `auth.refresh()`
invocations, `refreshSettled` counts those whose promise has settled
(so `refreshStarts - refreshSettled` is the number of in-flight refresh
operations), `nextTicket` names the next refresh promise. -/
structure BatchState where
  tokens : TokensManagerClass
  refreshPromise : Option Nat
  lastRequestConfig : Option RequestConfig
  nextTicket : Nat
  refreshStarts : Nat
  refreshSettled : Nat
  onRefreshCount : Nat
  onRefreshFailureCount : Nat
deriving Repr, DecidableEq

/-- A middleware activation after its synchronous prefix: it either
passed the response through (finished), or suspended awaiting the
refresh promise named by `ticket`, holding its local snapshot of
`_lastRequestConfig`. -/
inductive TaskState where
  | passed (resp : Response)
  | awaiting (resp : Response) (snapshot : Option RequestConfig) (ticket : Nat)
deriving Repr, DecidableEq

/-- Synchronous prefix of one activation (lines 125-142): the three
pass-through guards; then snapshot the captured config; then start a
refresh if no promise is pending, else attach to the pending one. The
refresh POST's own request-middleware run clobbers
`_lastRequestConfig` at a transport-determined later time; no claim
observes the slot after this point, so it is left in place here (the
snapshot is taken first either way). -/
def respEnter (g : BatchState) (resp : Response) : BatchState × TaskState :=
  if resp.status ≠ 401 then (g, .passed resp)
  else if !g.tokens.hasRefresh then (g, .passed resp)
  else if includesSub resp.urlOrEmpty "/refresh" then (g, .passed resp)
  else
    let snapshot := g.lastRequestConfig
    match g.refreshPromise with
    | some t => (g, .awaiting resp snapshot t)
    | none =>
        ({ g with refreshPromise := some g.nextTicket
                  nextTicket := g.nextTicket + 1
                  refreshStarts := g.refreshStarts + 1 },
         .awaiting resp snapshot g.nextTicket)

/-- Does the refresh promise resolve (as opposed to reject)? Per
`emailRefresh`, only a thrown error rejects; an `ok: false` JSON still
resolves (with `false`). -/
def refreshResolves : RefreshResult → Bool
  | .throw _ => false
  | .json _ => true

/-- The in-flight refresh settles: apply `emailRefresh`'s token effect
and record the settlement; returns whether the promise resolved. -/
def settleBatchRefresh (g : BatchState) (r : RefreshResult) : BatchState × Bool :=
  match emailRefresh g.tokens r with
  | .error _ => ({ g with refreshSettled := g.refreshSettled + 1 }, false)
  | .ok p =>
      ({ g with tokens := p.1, refreshSettled := g.refreshSettled + 1 }, true)

/-- Resumption of one awaiting activation after the shared refresh
settled (lines 143-191): on resolution fire `onRefresh`, clear the
promise slot (`finally`), and replay the snapshot with the current
access token; on rejection fire `onRefreshFailure`, clear the slot, and
return the original response. Returns the new shared state, the
response this activation hands to its caller, and its replay call. -/
def respResume (g : BatchState) (resp : Response) (snapshot : Option RequestConfig)
    (success : Bool) (f : ReplayCall → Except JsError Response) :
    BatchState × Response × Option ReplayCall :=
  if success then
    let g := { g with onRefreshCount := g.onRefreshCount + 1, refreshPromise := none }
    match snapshot with
    | none => (g, resp, none)
    | some cfg =>
        let rc := replayCallOf cfg g.tokens.access
        match f rc with
        | .ok r => (g, r, some rc)
        | .error _ => (g, resp, some rc)
  else
    ({ g with onRefreshFailureCount := g.onRefreshFailureCount + 1
              refreshPromise := none },
     resp, none)

/-- The state change a task contributes at resumption time (a task that
already passed through contributes none). -/
def resumeStep (g : BatchState) (t : TaskState) (success : Bool)
    (f : ReplayCall → Except JsError Response) : BatchState :=
  match t with
  | .passed _ => g
  | .awaiting resp snap _ => (respResume g resp snap success f).1

/-- Run the synchronous prefixes of a batch of activations in order. -/
def runEnters (g : BatchState) : List Response → BatchState × List TaskState
  | [] => (g, [])
  | resp :: rest =>
      let e := respEnter g resp
      let k := runEnters e.1 rest
      (k.1, e.2 :: k.2)

/-- Resume the batch's tasks in order after the refresh settled. -/
def runResumes (g : BatchState) (success : Bool)
    (f : ReplayCall → Except JsError Response) :
    List TaskState → BatchState
  | [] => g
  | t :: rest => runResumes (resumeStep g t success f) success f rest

/-- Full batch schedule: all prefixes, one settle, all resumptions. -/
def runBatch (g : BatchState) (resps : List Response) (r : RefreshResult)
    (f : ReplayCall → Except JsError Response) : BatchState :=
  let e := runEnters g resps
  let s := settleBatchRefresh e.1 r
  runResumes s.1 s.2 f e.2

/-- Every shared state reached during the prefix phase, in order. -/
def statesEnters (g : BatchState) : List Response → List BatchState
  | [] => [g]
  | resp :: rest => g :: statesEnters (respEnter g resp).1 rest

/-- Every shared state reached during the resumption phase, in order. -/
def statesResumes (g : BatchState) (success : Bool)
    (f : ReplayCall → Except JsError Response) :
    List TaskState → List BatchState
  | [] => [g]
  | t :: rest => g :: statesResumes (resumeStep g t success f) success f rest

/-- Every shared state the batch schedule passes through, including the
post-settle instant (head of the resumption states). -/
def batchTraceStates (g : BatchState) (resps : List Response) (r : RefreshResult)
    (f : ReplayCall → Except JsError Response) : List BatchState :=
  let e := runEnters g resps
  let s := settleBatchRefresh e.1 r
  statesEnters g resps ++ statesResumes s.1 s.2 f e.2

/-- Number of activations of a batch that suspended on the refresh. -/
def countAwaiting : List TaskState → Nat
  | [] => 0
  | .passed _ :: rest => countAwaiting rest
  | .awaiting _ _ _ :: rest => countAwaiting rest + 1

/-- Shared-state effect of the one activation that finds no pending
promise and starts the refresh (the `none` branch of `respEnter`). -/
def startState (g : BatchState) : BatchState :=
  { g with refreshPromise := some g.nextTicket
           nextTicket := g.nextTicket + 1
           refreshStarts := g.refreshStarts + 1 }

/-! ## Concrete scenario used by witnesses and counterexamples -/

/-- A fresh `Kodzero` instance that ran `setTokens("A1","R1")`: both
tokens set, no pending refresh, nothing captured yet. -/
def sampleState : BatchState :=
  { tokens := { access := "A1", refresh := "R1" }
    refreshPromise := none
    lastRequestConfig := none
    nextTicket := 0
    refreshStarts := 0
    refreshSettled := 0
    onRefreshCount := 0
    onRefreshFailureCount := 0 }

/-- Two concurrent API requests that both came back 401. -/
def sampleResponses : List Response :=
  [{ status := 401, url := some "https://api.example.com/users", body := "unauthorized-1" },
   { status := 401, url := some "https://api.example.com/users", body := "unauthorized-2" }]

/-- A refresh endpoint answer issuing a new access token `A2` only. -/
def sampleRefreshOk : RefreshResult :=
  .json { ok := true, tokens := some "A2" }

/-- A replay transport that always fails with a network error. -/
def sampleFetchFail : ReplayCall → Except JsError Response :=
  fun _ => .error (.other "network error")

/-- A single 401 response from a plain collection endpoint. -/
def sample401 : Response :=
  { status := 401, url := some "https://api.example.com/users", body := "unauthorized-1" }

/-- The sequential-model state of a fresh instance after
`setTokens("A1","R1")`: nothing captured, no pending refresh. -/
def sampleGuardState : GuardState :=
  { tokens := { access := "A1", refresh := "R1" }
    refreshPromise := none
    lastRequestConfig := none
    onRefreshCount := 0
    onRefreshFailureCount := 0 }

/-- A captured request config for the failing GET. -/
def sampleCaptured : RequestConfig :=
  { method := "GET"
    url := "https://api.example.com/users"
    headers := [("Accept", "application/json"), ("Authorization", "Bearer A1")]
    data := .jnull
    params := [] }

/-- `sampleGuardState` after the failing request was captured. -/
def sampleGuardStateCaptured : GuardState :=
  { sampleGuardState with lastRequestConfig := some sampleCaptured }

/-- An outgoing request before interception (no method set yet). -/
def sampleRequest : Request :=
  { method := ""
    url := "https://api.example.com/users"
    headers := [("Accept", "application/json")]
    data := .jnull
    params := [("limit", "10")] }

/-- The successful response produced by the replay transport. -/
def sampleReplayResponse : Response :=
  { status := 200, url := some "https://api.example.com/users", body := "replayed ok" }

/-- A replay transport that always succeeds with `sampleReplayResponse`. -/
def sampleFetchOk : ReplayCall → Except JsError Response :=
  fun _ => .ok sampleReplayResponse

/-- The 401 `KodzeroApiError` thrown by a failing wrapped operation. -/
def sample401Error : JsError :=
  .api { url := "https://api.example.com/users", statusCode := 401,
         message := "unauthorized", details := "" }

/-! ## Helper lemmas -/

/-- Writing a key and reading it back yields the written value. -/
theorem JsMap.get_set_self (m : JsMap) (k v : String) :
    JsMap.get (JsMap.set m k v) k = some v := by
  induction m with
  | nil => simp [JsMap.set, JsMap.get]
  | cons p rest ih =>
      obtain ⟨k', v'⟩ := p
      by_cases h : k' = k
      · simp [JsMap.set, JsMap.get, h]
      · simp [JsMap.set, JsMap.get, h, ih]

/-- Writing a key leaves every other key's value unchanged. -/
theorem JsMap.get_set_other (m : JsMap) (k v k' : String) (h : k' ≠ k) :
    JsMap.get (JsMap.set m k v) k' = JsMap.get m k' := by
  have h' : k ≠ k' := Ne.symm h
  induction m with
  | nil => simp [JsMap.set, JsMap.get, h']
  | cons p rest ih =>
      obtain ⟨k0, v0⟩ := p
      by_cases h0 : k0 = k
      · subst h0
        simp [JsMap.set, JsMap.get, h']
      · simp [JsMap.set, JsMap.get, h0, ih]

/-- An activation entering while a refresh promise is pending never
changes the shared state. -/
theorem respEnter_state_of_pending (g : BatchState) (resp : Response) (t : Nat)
    (h : g.refreshPromise = some t) : (respEnter g resp).1 = g := by
  unfold respEnter
  rw [h]
  split
  · rfl
  · split
    · rfl
    · split
      · rfl
      · rfl

/-- Entering never changes the tokens, the callback counters, or the
settled-refresh count. -/
theorem respEnter_preserves (g : BatchState) (resp : Response) :
    (respEnter g resp).1.tokens = g.tokens ∧
    (respEnter g resp).1.onRefreshCount = g.onRefreshCount ∧
    (respEnter g resp).1.onRefreshFailureCount = g.onRefreshFailureCount ∧
    (respEnter g resp).1.refreshSettled = g.refreshSettled := by
  unfold respEnter
  split
  · exact ⟨rfl, rfl, rfl, rfl⟩
  · split
    · exact ⟨rfl, rfl, rfl, rfl⟩
    · split
      · exact ⟨rfl, rfl, rfl, rfl⟩
      · cases h : g.refreshPromise <;> simp

/-- With a refresh token held, a 401 from a non-refresh URL arriving
while no promise is pending starts the refresh and suspends. -/
theorem respEnter_start (g : BatchState) (resp : Response)
    (hp : g.refreshPromise = none) (ht : g.tokens.hasRefresh = true)
    (h401 : resp.status = 401)
    (hurl : includesSub resp.urlOrEmpty "/refresh" = false) :
    respEnter g resp = (startState g, .awaiting resp g.lastRequestConfig g.nextTicket) := by
  unfold respEnter startState
  rw [hp]
  simp [h401, ht, hurl]

/-- With a refresh token held, a 401 from a non-refresh URL always
suspends on the (new or pending) refresh promise. -/
theorem respEnter_task_awaits (g : BatchState) (resp : Response)
    (ht : g.tokens.hasRefresh = true) (h401 : resp.status = 401)
    (hurl : includesSub resp.urlOrEmpty "/refresh" = false) :
    ∃ snap tk, (respEnter g resp).2 = .awaiting resp snap tk := by
  unfold respEnter
  cases h : g.refreshPromise <;> simp [h401, ht, hurl, h]

/-- While a refresh promise is pending, running any batch of prefixes
leaves the shared state unchanged. -/
theorem runEnters_state_of_pending (resps : List Response) (g : BatchState) (t : Nat)
    (h : g.refreshPromise = some t) : (runEnters g resps).1 = g := by
  induction resps generalizing g with
  | nil => rfl
  | cons a rest ih =>
      have h1 := respEnter_state_of_pending g a t h
      simp only [runEnters]
      rw [h1]
      exact ih g h

/-- While a refresh promise is pending, every state reached during the
prefix phase is the starting state. -/
theorem mem_statesEnters_of_pending (resps : List Response) (g : BatchState) (t : Nat)
    (h : g.refreshPromise = some t) : ∀ s ∈ statesEnters g resps, s = g := by
  induction resps generalizing g with
  | nil =>
      intro s hs
      simpa [statesEnters] using hs
  | cons a rest ih =>
      intro s hs
      simp only [statesEnters, List.mem_cons] at hs
      rcases hs with rfl | hs
      · rfl
      · have h1 := respEnter_state_of_pending g a t h
        rw [h1] at hs
        exact ih g h s hs

/-- The prefix phase never changes the tokens, the callback counters,
or the settled-refresh count. -/
theorem runEnters_preserves (resps : List Response) (g : BatchState) :
    (runEnters g resps).1.tokens = g.tokens ∧
    (runEnters g resps).1.onRefreshCount = g.onRefreshCount ∧
    (runEnters g resps).1.onRefreshFailureCount = g.onRefreshFailureCount ∧
    (runEnters g resps).1.refreshSettled = g.refreshSettled := by
  induction resps generalizing g with
  | nil => exact ⟨rfl, rfl, rfl, rfl⟩
  | cons a rest ih =>
      obtain ⟨e1, e2, e3, e4⟩ := respEnter_preserves g a
      obtain ⟨i1, i2, i3, i4⟩ := ih (respEnter g a).1
      simp only [runEnters]
      exact ⟨e1 ▸ i1, e2 ▸ i2, e3 ▸ i3, e4 ▸ i4⟩

/-- With a refresh token held and every batch response a recoverable
401, every activation of the batch suspends on the refresh promise. -/
theorem countAwaiting_runEnters (resps : List Response) (g : BatchState)
    (ht : g.tokens.hasRefresh = true)
    (hall : ∀ resp ∈ resps,
      resp.status = 401 ∧ includesSub resp.urlOrEmpty "/refresh" = false) :
    countAwaiting (runEnters g resps).2 = resps.length := by
  induction resps generalizing g with
  | nil => rfl
  | cons a rest ih =>
      obtain ⟨h401, hurl⟩ := hall a (List.mem_cons_self a rest)
      obtain ⟨snap, tk, htask⟩ := respEnter_task_awaits g a ht h401 hurl
      have ht' : (respEnter g a).1.tokens.hasRefresh = true := by
        rw [(respEnter_preserves g a).1]; exact ht
      have hrest := ih (respEnter g a).1 ht'
        (fun resp hr => hall resp (List.mem_cons_of_mem a hr))
      simp only [runEnters, htask, countAwaiting, hrest, List.length_cons]

/-- The settle step increments the settled count, leaves the start
count, the promise slot and the callback counters unchanged, and
reports whether the promise resolved. -/
theorem settleBatchRefresh_spec (g : BatchState) (r : RefreshResult) :
    (settleBatchRefresh g r).1.refreshStarts = g.refreshStarts ∧
    (settleBatchRefresh g r).1.refreshSettled = g.refreshSettled + 1 ∧
    (settleBatchRefresh g r).1.refreshPromise = g.refreshPromise ∧
    (settleBatchRefresh g r).1.onRefreshCount = g.onRefreshCount ∧
    (settleBatchRefresh g r).1.onRefreshFailureCount = g.onRefreshFailureCount ∧
    (settleBatchRefresh g r).2 = refreshResolves r := by
  cases r with
  | throw e => simp [settleBatchRefresh, emailRefresh, refreshResolves]
  | json j => simp [settleBatchRefresh, emailRefresh, refreshResolves]

/-- A resumed activation's shared-state effect: bump the matching
callback counter and clear the promise slot; nothing else changes. -/
theorem respResume_state (g : BatchState) (resp : Response)
    (snap : Option RequestConfig) (success : Bool)
    (f : ReplayCall → Except JsError Response) :
    (respResume g resp snap success f).1 =
      if success then
        { g with onRefreshCount := g.onRefreshCount + 1, refreshPromise := none }
      else
        { g with onRefreshFailureCount := g.onRefreshFailureCount + 1
                 refreshPromise := none } := by
  unfold respResume
  cases success with
  | false => simp
  | true =>
      cases snap with
      | none => simp
      | some cfg =>
          simp only [if_true]
          split <;> rfl

/-- A resumption step keeps the start and settled counts. -/
theorem resumeStep_counts (g : BatchState) (t : TaskState) (success : Bool)
    (f : ReplayCall → Except JsError Response) :
    (resumeStep g t success f).refreshStarts = g.refreshStarts ∧
    (resumeStep g t success f).refreshSettled = g.refreshSettled := by
  cases t with
  | passed _ => exact ⟨rfl, rfl⟩
  | awaiting resp snap tk =>
      simp only [resumeStep, respResume_state]
      cases success <;> simp

/-- The resumption phase keeps the start and settled counts and adds
one firing of the matching callback per suspended activation. -/
theorem runResumes_spec (ts : List TaskState) (g : BatchState) (success : Bool)
    (f : ReplayCall → Except JsError Response) :
    (runResumes g success f ts).refreshStarts = g.refreshStarts ∧
    (runResumes g success f ts).refreshSettled = g.refreshSettled ∧
    (runResumes g success f ts).onRefreshCount =
      g.onRefreshCount + (if success then countAwaiting ts else 0) ∧
    (runResumes g success f ts).onRefreshFailureCount =
      g.onRefreshFailureCount + (if success then 0 else countAwaiting ts) := by
  induction ts generalizing g with
  | nil => simp [runResumes, countAwaiting]
  | cons t rest ih =>
      obtain ⟨i1, i2, i3, i4⟩ := ih (resumeStep g t success f)
      refine ⟨?_, ?_, ?_, ?_⟩
      · rw [runResumes, i1, (resumeStep_counts g t success f).1]
      · rw [runResumes, i2, (resumeStep_counts g t success f).2]
      · rw [runResumes, i3]
        cases t with
        | passed _ => simp [resumeStep, countAwaiting]
        | awaiting resp snap tk =>
            simp only [resumeStep, respResume_state, countAwaiting]
            cases success <;> (simp; try omega)
      · rw [runResumes, i4]
        cases t with
        | passed _ => simp [resumeStep, countAwaiting]
        | awaiting resp snap tk =>
            simp only [resumeStep, respResume_state, countAwaiting]
            cases success <;> (simp; try omega)

/-- Every state reached during the resumption phase carries the start
and settled counts of the state the phase began in. -/
theorem mem_statesResumes_counts (ts : List TaskState) (g : BatchState)
    (success : Bool) (f : ReplayCall → Except JsError Response) :
    ∀ s ∈ statesResumes g success f ts,
      s.refreshStarts = g.refreshStarts ∧ s.refreshSettled = g.refreshSettled := by
  induction ts generalizing g with
  | nil =>
      intro s hs
      simp only [statesResumes, List.mem_singleton] at hs
      exact ⟨by rw [hs], by rw [hs]⟩
  | cons t rest ih =>
      intro s hs
      simp only [statesResumes, List.mem_cons] at hs
      rcases hs with rfl | hs
      · exact ⟨rfl, rfl⟩
      · obtain ⟨i1, i2⟩ := ih (resumeStep g t success f) s hs
        obtain ⟨c1, c2⟩ := resumeStep_counts g t success f
        exact ⟨i1.trans c1, i2.trans c2⟩

/-! ## Claim theorems -/

/-- C1: for a batch of N > 1 concurrently outstanding requests on one
instance that each receive a 401 while a refresh token is held (and
none of which is the refresh call itself), the batch schedule invokes
`auth.refresh()` exactly once, and at every instant of the schedule at
most one started refresh is unsettled (at most one pending
RefreshTicket). -/
theorem autoRefresh_dedup_single_refresh
    (g : BatchState) (resps : List Response) (r : RefreshResult)
    (f : ReplayCall → Except JsError Response)
    (hp : g.refreshPromise = none)
    (hq : g.refreshSettled = g.refreshStarts)
    (ht : g.tokens.hasRefresh = true)
    (hn : 1 < resps.length)
    (hall : ∀ resp ∈ resps,
      resp.status = 401 ∧ includesSub resp.urlOrEmpty "/refresh" = false) :
    (runBatch g resps r f).refreshStarts = g.refreshStarts + 1 ∧
    (∀ s ∈ batchTraceStates g resps r f,
      s.refreshStarts - s.refreshSettled ≤ 1) := by
  cases resps with
  | nil => simp at hn
  | cons a rest =>
      obtain ⟨h401, hurl⟩ := hall a (List.mem_cons_self a rest)
      have hstep := respEnter_start g a hp ht h401 hurl
      have h1 : (runEnters g (a :: rest)).1 = startState g := by
        simp only [runEnters]
        rw [hstep]
        exact runEnters_state_of_pending rest (startState g) g.nextTicket rfl
      obtain ⟨s1, s2, s3, s4, s5, s6⟩ :=
        settleBatchRefresh_spec (runEnters g (a :: rest)).1 r
      obtain ⟨r1, r2, r3, r4⟩ :=
        runResumes_spec (runEnters g (a :: rest)).2
          (settleBatchRefresh (runEnters g (a :: rest)).1 r).1
          (settleBatchRefresh (runEnters g (a :: rest)).1 r).2 f
      constructor
      · show (runResumes _ _ f (runEnters g (a :: rest)).2).refreshStarts
            = g.refreshStarts + 1
        rw [r1, s1, h1]
        rfl
      · intro s hs
        simp only [batchTraceStates, List.mem_append] at hs
        rcases hs with hs | hs
        · simp only [statesEnters, List.mem_cons] at hs
          rcases hs with rfl | hs
          · omega
          · rw [hstep] at hs
            have hsg := mem_statesEnters_of_pending rest (startState g)
              g.nextTicket rfl s hs
            subst hsg
            simp only [startState]
            omega
        · obtain ⟨m1, m2⟩ := mem_statesResumes_counts (runEnters g (a :: rest)).2
            (settleBatchRefresh (runEnters g (a :: rest)).1 r).1
            (settleBatchRefresh (runEnters g (a :: rest)).1 r).2 f s hs
          rw [m1, m2, s1, s2, h1]
          simp only [startState]
          omega

/-- Witness for C1 at a concrete batch: two 401s on a fresh instance
holding tokens A1/R1, refresh issuing A2, replay transport failing. -/
theorem autoRefresh_dedup_single_refresh_witness :
    (runBatch sampleState sampleResponses sampleRefreshOk sampleFetchFail).refreshStarts
        = sampleState.refreshStarts + 1 ∧
    (∀ s ∈ batchTraceStates sampleState sampleResponses sampleRefreshOk sampleFetchFail,
      s.refreshStarts - s.refreshSettled ≤ 1) :=
  autoRefresh_dedup_single_refresh sampleState sampleResponses sampleRefreshOk
    sampleFetchFail (by decide) (by decide) (by decide) (by decide) (by decide)

/-- C2 counterexample: with two concurrent 401s awaiting one shared
refresh attempt (exactly one `auth.refresh()` invocation), `onRefresh`
fires twice, not once per refresh attempt as claimed. -/
theorem autoRefresh_callbacks_counterexample :
    (runBatch sampleState sampleResponses sampleRefreshOk sampleFetchFail).refreshStarts = 1 ∧
    (runBatch sampleState sampleResponses sampleRefreshOk sampleFetchFail).onRefreshCount = 2 ∧
    (2 : Nat) ≠ 1 := by
  refine ⟨by decide, by decide, by decide⟩

/-- C2 (amended): the completion callbacks fire exactly once per
awaiting failed request — `onRefresh` (on resolution) or
`onRefreshFailure` (on rejection) fires N times for N concurrently
awaiting requests sharing one refresh attempt, hence exactly once in
the single-request case. -/
theorem autoRefresh_callbacks_per_awaiter
    (g : BatchState) (resps : List Response) (r : RefreshResult)
    (f : ReplayCall → Except JsError Response)
    (ht : g.tokens.hasRefresh = true)
    (hall : ∀ resp ∈ resps,
      resp.status = 401 ∧ includesSub resp.urlOrEmpty "/refresh" = false) :
    (refreshResolves r = true →
      (runBatch g resps r f).onRefreshCount = g.onRefreshCount + resps.length ∧
      (runBatch g resps r f).onRefreshFailureCount = g.onRefreshFailureCount) ∧
    (refreshResolves r = false →
      (runBatch g resps r f).onRefreshCount = g.onRefreshCount ∧
      (runBatch g resps r f).onRefreshFailureCount
        = g.onRefreshFailureCount + resps.length) := by
  obtain ⟨e1, e2, e3, e4⟩ := runEnters_preserves resps g
  have hcnt : countAwaiting (runEnters g resps).2 = resps.length :=
    countAwaiting_runEnters resps g ht hall
  obtain ⟨s1, s2, s3, s4, s5, s6⟩ := settleBatchRefresh_spec (runEnters g resps).1 r
  obtain ⟨r1, r2, r3, r4⟩ :=
    runResumes_spec (runEnters g resps).2
      (settleBatchRefresh (runEnters g resps).1 r).1
      (settleBatchRefresh (runEnters g resps).1 r).2 f
  constructor
  · intro hres
    constructor
    · show (runResumes _ _ f (runEnters g resps).2).onRefreshCount = _
      rw [r3, s4, e2, s6, hres, hcnt]
      simp
    · show (runResumes _ _ f (runEnters g resps).2).onRefreshFailureCount = _
      rw [r4, s5, e3, s6, hres]
      simp
  · intro hres
    constructor
    · show (runResumes _ _ f (runEnters g resps).2).onRefreshCount = _
      rw [r3, s4, e2, s6, hres]
      simp
    · show (runResumes _ _ f (runEnters g resps).2).onRefreshFailureCount = _
      rw [r4, s5, e3, s6, hres, hcnt]
      simp

/-- Witness for the amended C2 at the concrete two-request batch. -/
theorem autoRefresh_callbacks_per_awaiter_witness :
    (refreshResolves sampleRefreshOk = true →
      (runBatch sampleState sampleResponses sampleRefreshOk sampleFetchFail).onRefreshCount
          = sampleState.onRefreshCount + sampleResponses.length ∧
      (runBatch sampleState sampleResponses sampleRefreshOk sampleFetchFail).onRefreshFailureCount
          = sampleState.onRefreshFailureCount) ∧
    (refreshResolves sampleRefreshOk = false →
      (runBatch sampleState sampleResponses sampleRefreshOk sampleFetchFail).onRefreshCount
          = sampleState.onRefreshCount ∧
      (runBatch sampleState sampleResponses sampleRefreshOk sampleFetchFail).onRefreshFailureCount
          = sampleState.onRefreshFailureCount + sampleResponses.length) :=
  autoRefresh_callbacks_per_awaiter sampleState sampleResponses sampleRefreshOk
    sampleFetchFail (by decide) (by decide)

/-- C4: an unauthorized response whose URL indicates the refresh
endpoint itself (the code's criterion: the URL contains "/refresh")
is never intercepted for refresh: it is returned unmodified, the
instance state is untouched, `auth.refresh()` is not invoked and no
replay is attempted. -/
theorem no_refresh_loop (host : String) (st : GuardState) (resp : Response)
    (rres : RefreshResult) (f : ReplayCall → Except JsError Response)
    (h401 : resp.status = 401)
    (hurl : includesSub resp.urlOrEmpty "/refresh" = true) :
    autoRefreshHandler host st resp rres f = ⟨resp, st, false, none⟩ := by
  unfold autoRefreshHandler
  simp [h401, hurl]

/-- Witness for C4 at the actual refresh endpoint URL built by
`buildURL(host, "auth/password" + "/refresh")`. -/
theorem no_refresh_loop_witness :
    autoRefreshHandler "https://api.example.com" sampleGuardState
      { status := 401, url := some (refreshEndpointUrl "https://api.example.com"),
        body := "refresh token expired" }
      sampleRefreshOk sampleFetchFail
      = ⟨{ status := 401, url := some (refreshEndpointUrl "https://api.example.com"),
           body := "refresh token expired" },
         sampleGuardState, false, none⟩ :=
  no_refresh_loop "https://api.example.com" sampleGuardState _ sampleRefreshOk
    sampleFetchFail (by decide) (by decide)

/-- C10: the refresh-endpoint exemption is a bare substring test — a
401 from a non-auth path that merely contains "/refresh" (a collection
named "refresh-jobs") passes through unchanged with no refresh and no
replay, even while a refresh token is held. -/
theorem refresh_guard_is_substring_test (host : String) (st : GuardState)
    (rres : RefreshResult) (f : ReplayCall → Except JsError Response) (body : String)
    (_ht : st.tokens.hasRefresh = true) :
    autoRefreshHandler host st
      { status := 401, url := some "https://api.example.com/refresh-jobs/list",
        body := body } rres f
      = ⟨{ status := 401, url := some "https://api.example.com/refresh-jobs/list",
           body := body }, st, false, none⟩ := by
  have hurl : includesSub
      (Response.urlOrEmpty
        { status := 401, url := some "https://api.example.com/refresh-jobs/list",
          body := body }) "/refresh" = true := by
    simp [Response.urlOrEmpty]
    decide
  unfold autoRefreshHandler
  simp [hurl]

/-- Witness for C10 on the sample instance. -/
theorem refresh_guard_is_substring_test_witness :
    autoRefreshHandler "https://api.example.com" sampleGuardState
      { status := 401, url := some "https://api.example.com/refresh-jobs/list",
        body := "unauthorized" } sampleRefreshOk sampleFetchFail
      = ⟨{ status := 401, url := some "https://api.example.com/refresh-jobs/list",
           body := "unauthorized" }, sampleGuardState, false, none⟩ :=
  refresh_guard_is_substring_test "https://api.example.com" sampleGuardState
    sampleRefreshOk sampleFetchFail "unauthorized" (by decide)

/-- C8: a successful refresh whose payload carries only a new access
token replaces the access token and leaves the stored refresh token
unchanged. -/
theorem refresh_replaces_access_only (t : TokensManagerClass) (j : RefreshJson)
    (a : String) (hok : j.ok = true) (htk : j.tokens = some a) (ha : a ≠ "") :
    emailRefresh t (.json j) = .ok ({ access := a, refresh := t.refresh }, true) := by
  have ha' : (a != "") = true := by simpa using ha
  simp [emailRefresh, hok, htk, ha', TokensManagerClass.setAccess]

/-- Witness for C8: pair A1/R1, refresh returns access A2 only, pair
becomes A2/R1. -/
theorem refresh_replaces_access_only_witness :
    emailRefresh { access := "A1", refresh := "R1" }
        (.json { ok := true, tokens := some "A2" })
      = .ok ({ access := "A2", refresh := "R1" }, true) :=
  refresh_replaces_access_only { access := "A1", refresh := "R1" }
    { ok := true, tokens := some "A2" } "A2" (by decide) (by decide) (by decide)

/-- C9: the request hook attaches `Authorization: Bearer <access>` iff
the access token is a non-empty string (leaving all other headers
unchanged), returns the request otherwise unchanged, never fails, and
unconditionally overwrites the captured-request slot with the request's
method (defaulting to GET), URL, a copy of its headers, its body
payload, and a copy of its query params. -/
theorem requestHook_spec (access : String) (req : Request) :
    (access ≠ "" →
      JsMap.get (requestHook access req).req.headers "Authorization"
          = some ("Bearer " ++ access) ∧
      (∀ k, k ≠ "Authorization" →
        JsMap.get (requestHook access req).req.headers k = JsMap.get req.headers k)) ∧
    (access = "" → (requestHook access req).req = req) ∧
    (requestHook access req).req.method = req.method ∧
    (requestHook access req).req.url = req.url ∧
    (requestHook access req).req.data = req.data ∧
    (requestHook access req).req.params = req.params ∧
    (requestHook access req).captured =
      { method := if req.method = "" then "GET" else req.method
        url := req.url
        headers := (requestHook access req).req.headers
        data := req.data
        params := req.params } := by
  by_cases h : access = ""
  · subst h
    refine ⟨fun hc => absurd rfl hc, fun _ => rfl, rfl, rfl, rfl, rfl, rfl⟩
  · have h' : (access != "") = true := by simpa using h
    refine ⟨fun _ => ⟨?_, ?_⟩, fun hc => absurd hc h, ?_, ?_, ?_, ?_, ?_⟩
    · simp [requestHook, h', JsMap.get_set_self]
    · intro k hk
      simp only [requestHook, h', if_true]
      exact JsMap.get_set_other req.headers "Authorization" ("Bearer " ++ access) k hk
    · simp [requestHook, h']
    · simp [requestHook, h']
    · simp [requestHook, h']
    · simp [requestHook, h']
    · simp [requestHook, h']

/-- Witness for C9 at a concrete request with a non-empty access token. -/
theorem requestHook_spec_witness :
    ("A1" ≠ "" →
      JsMap.get (requestHook "A1" sampleRequest).req.headers "Authorization"
          = some ("Bearer " ++ "A1") ∧
      (∀ k, k ≠ "Authorization" →
        JsMap.get (requestHook "A1" sampleRequest).req.headers k
            = JsMap.get sampleRequest.headers k)) ∧
    ("A1" = "" → (requestHook "A1" sampleRequest).req = sampleRequest) ∧
    (requestHook "A1" sampleRequest).req.method = sampleRequest.method ∧
    (requestHook "A1" sampleRequest).req.url = sampleRequest.url ∧
    (requestHook "A1" sampleRequest).req.data = sampleRequest.data ∧
    (requestHook "A1" sampleRequest).req.params = sampleRequest.params ∧
    (requestHook "A1" sampleRequest).captured =
      { method := if sampleRequest.method = "" then "GET" else sampleRequest.method
        url := sampleRequest.url
        headers := (requestHook "A1" sampleRequest).req.headers
        data := sampleRequest.data
        params := sampleRequest.params } :=
  requestHook_spec "A1" sampleRequest

/-- C5: when the refresh attempt rejects, the token pair afterwards
equals the token pair before (no partial overwrite), `onRefreshFailure`
fires, the original 401 is returned with no replay attempted, and the
pending refresh promise slot is cleared. -/
theorem refresh_failure_preserves_state (host : String) (st : GuardState)
    (resp : Response) (e : JsError) (f : ReplayCall → Except JsError Response)
    (hp : st.refreshPromise = none)
    (h401 : resp.status = 401)
    (ht : st.tokens.hasRefresh = true)
    (hurl : includesSub resp.urlOrEmpty "/refresh" = false) :
    (autoRefreshHandler host st resp (.throw e) f).result = resp ∧
    (autoRefreshHandler host st resp (.throw e) f).state.tokens = st.tokens ∧
    (autoRefreshHandler host st resp (.throw e) f).state.refreshPromise = none ∧
    (autoRefreshHandler host st resp (.throw e) f).state.onRefreshFailureCount
        = st.onRefreshFailureCount + 1 ∧
    (autoRefreshHandler host st resp (.throw e) f).state.onRefreshCount
        = st.onRefreshCount ∧
    (autoRefreshHandler host st resp (.throw e) f).refreshCalled = true ∧
    (autoRefreshHandler host st resp (.throw e) f).replay = none := by
  unfold autoRefreshHandler
  simp [h401, ht, hurl, hp, emailRefresh, Except.map]

/-- Witness for C5: refresh rejects with a network error on the sample
instance; the pair A1/R1 survives untouched. -/
theorem refresh_failure_preserves_state_witness :
    (autoRefreshHandler "https://api.example.com" sampleGuardStateCaptured sample401
        (.throw (.other "refresh network error")) sampleFetchOk).result = sample401 ∧
    (autoRefreshHandler "https://api.example.com" sampleGuardStateCaptured sample401
        (.throw (.other "refresh network error")) sampleFetchOk).state.tokens
        = sampleGuardStateCaptured.tokens ∧
    (autoRefreshHandler "https://api.example.com" sampleGuardStateCaptured sample401
        (.throw (.other "refresh network error")) sampleFetchOk).state.refreshPromise
        = none ∧
    (autoRefreshHandler "https://api.example.com" sampleGuardStateCaptured sample401
        (.throw (.other "refresh network error")) sampleFetchOk).state.onRefreshFailureCount
        = sampleGuardStateCaptured.onRefreshFailureCount + 1 ∧
    (autoRefreshHandler "https://api.example.com" sampleGuardStateCaptured sample401
        (.throw (.other "refresh network error")) sampleFetchOk).state.onRefreshCount
        = sampleGuardStateCaptured.onRefreshCount ∧
    (autoRefreshHandler "https://api.example.com" sampleGuardStateCaptured sample401
        (.throw (.other "refresh network error")) sampleFetchOk).refreshCalled = true ∧
    (autoRefreshHandler "https://api.example.com" sampleGuardStateCaptured sample401
        (.throw (.other "refresh network error")) sampleFetchOk).replay = none :=
  refresh_failure_preserves_state "https://api.example.com" sampleGuardStateCaptured
    sample401 (.other "refresh network error") sampleFetchOk
    (by decide) (by decide) (by decide) (by decide)

/-- C3: a single failing request followed by a successful refresh that
issues access token `a`: the caller receives the replayed response (the
transport's result, not the original 401), the replay's Authorization
header is exactly `Bearer a`, and the stored access token is `a`. -/
theorem replay_transparency (host : String) (st : GuardState) (resp rr : Response)
    (j : RefreshJson) (a : String) (cfg : RequestConfig)
    (f : ReplayCall → Except JsError Response)
    (hp : st.refreshPromise = none)
    (hslot : st.lastRequestConfig = some cfg)
    (h401 : resp.status = 401)
    (ht : st.tokens.hasRefresh = true)
    (hurl : includesSub resp.urlOrEmpty "/refresh" = false)
    (hok : j.ok = true) (htk : j.tokens = some a) (ha : a ≠ "")
    (hf : f (replayCallOf cfg a) = .ok rr) :
    (autoRefreshHandler host st resp (.json j) f).result = rr ∧
    (autoRefreshHandler host st resp (.json j) f).replay
        = some (replayCallOf cfg a) ∧
    JsMap.get (replayCallOf cfg a).headers "Authorization"
        = some ("Bearer " ++ a) ∧
    (autoRefreshHandler host st resp (.json j) f).state.tokens.access = a := by
  have ha' : (a != "") = true := by simpa using ha
  refine ⟨?_, ?_, ?_, ?_⟩
  · unfold autoRefreshHandler
    simp [h401, ht, hurl, hp, hslot, emailRefresh, hok, htk, ha',
      TokensManagerClass.setAccess, Except.map, hf]
  · unfold autoRefreshHandler
    simp [h401, ht, hurl, hp, hslot, emailRefresh, hok, htk, ha',
      TokensManagerClass.setAccess, Except.map, hf]
  · simp [replayCallOf, JsMap.get_set_self]
  · unfold autoRefreshHandler
    simp [h401, ht, hurl, hp, hslot, emailRefresh, hok, htk, ha',
      TokensManagerClass.setAccess, Except.map, hf]

/-- Witness for C3: the sample captured GET is replayed with
`Bearer A2` and the caller sees the 200 replay response. -/
theorem replay_transparency_witness :
    (autoRefreshHandler "https://api.example.com" sampleGuardStateCaptured sample401
        sampleRefreshOk sampleFetchOk).result = sampleReplayResponse ∧
    (autoRefreshHandler "https://api.example.com" sampleGuardStateCaptured sample401
        sampleRefreshOk sampleFetchOk).replay
        = some (replayCallOf sampleCaptured "A2") ∧
    JsMap.get (replayCallOf sampleCaptured "A2").headers "Authorization"
        = some ("Bearer " ++ "A2") ∧
    (autoRefreshHandler "https://api.example.com" sampleGuardStateCaptured sample401
        sampleRefreshOk sampleFetchOk).state.tokens.access = "A2" :=
  replay_transparency "https://api.example.com" sampleGuardStateCaptured sample401
    sampleReplayResponse { ok := true, tokens := some "A2" } "A2" sampleCaptured
    sampleFetchOk (by decide) (by decide) (by decide) (by decide) (by decide)
    (by decide) (by decide) (by decide) rfl

/-- Case analysis of the response middleware's returned value: every
activation hands its caller either the original response or a response
the replay transport successfully produced — never anything else. -/
theorem autoRefreshHandler_result_cases (host : String) (st : GuardState)
    (resp : Response) (rres : RefreshResult)
    (f : ReplayCall → Except JsError Response) :
    (autoRefreshHandler host st resp rres f).result = resp ∨
    ∃ rc, (autoRefreshHandler host st resp rres f).replay = some rc ∧
      f rc = .ok ((autoRefreshHandler host st resp rres f).result) := by
  by_cases h1 : resp.status ≠ 401
  · exact Or.inl (by simp [autoRefreshHandler, h1])
  by_cases h2 : (!st.tokens.hasRefresh) = true
  · exact Or.inl (by simp [autoRefreshHandler, h1, h2])
  by_cases h3 : includesSub resp.urlOrEmpty "/refresh" = true
  · exact Or.inl (by simp [autoRefreshHandler, h1, h2, h3])
  replace h2 : (!st.tokens.hasRefresh) = false := by simpa using h2
  replace h3 : includesSub resp.urlOrEmpty "/refresh" = false := by simpa using h3
  cases hp : st.refreshPromise with
  | some t =>
      cases rres with
      | throw e => exact Or.inl (by simp [autoRefreshHandler, h1, h2, h3, hp])
      | json j =>
          cases hcfg : st.lastRequestConfig with
          | none =>
              exact Or.inl (by simp [autoRefreshHandler, h1, h2, h3, hp, hcfg])
          | some cfg =>
              rcases hf : f (replayCallOf cfg st.tokens.access) with e2 | r
              · exact Or.inl
                  (by simp [autoRefreshHandler, h1, h2, h3, hp, hcfg, hf])
              · exact Or.inr ⟨replayCallOf cfg st.tokens.access,
                  by simp [autoRefreshHandler, h1, h2, h3, hp, hcfg, hf],
                  by simp [autoRefreshHandler, h1, h2, h3, hp, hcfg, hf]⟩
  | none =>
      rcases h : emailRefresh st.tokens rres with e | p
      · exact Or.inl
          (by simp [autoRefreshHandler, h1, h2, h3, hp, h, Except.map])
      · obtain ⟨tk, b⟩ := p
        cases hcfg : st.lastRequestConfig with
        | none =>
            exact Or.inl
              (by simp [autoRefreshHandler, h1, h2, h3, hp, h, hcfg, Except.map])
        | some cfg =>
            rcases hf : f (replayCallOf cfg tk.access) with e2 | r
            · exact Or.inl
                (by simp [autoRefreshHandler, h1, h2, h3, hp, h, hcfg, hf, Except.map])
            · exact Or.inr ⟨replayCallOf cfg tk.access,
                by simp [autoRefreshHandler, h1, h2, h3, hp, h, hcfg, hf, Except.map],
                by simp [autoRefreshHandler, h1, h2, h3, hp, h, hcfg, hf, Except.map]⟩

/-- C6: if the replay transport call itself fails, the original 401 is
returned to the caller; and in general the auto-refresh mechanism never
surfaces a new error: every caller receives either the original
response or a response the replay transport successfully returned. -/
theorem replay_failure_swallowed (host : String) (st : GuardState)
    (resp : Response) (j : RefreshJson) (cfg : RequestConfig) (err : JsError)
    (f : ReplayCall → Except JsError Response)
    (hp : st.refreshPromise = none)
    (hslot : st.lastRequestConfig = some cfg)
    (h401 : resp.status = 401)
    (ht : st.tokens.hasRefresh = true)
    (hurl : includesSub resp.urlOrEmpty "/refresh" = false)
    (hf : ∀ rc, f rc = .error err) :
    (autoRefreshHandler host st resp (.json j) f).result = resp ∧
    (∀ (st2 : GuardState) (resp2 : Response) (rres2 : RefreshResult)
        (f2 : ReplayCall → Except JsError Response),
      (autoRefreshHandler host st2 resp2 rres2 f2).result = resp2 ∨
      ∃ rc, (autoRefreshHandler host st2 resp2 rres2 f2).replay = some rc ∧
        f2 rc = .ok ((autoRefreshHandler host st2 resp2 rres2 f2).result)) := by
  constructor
  · unfold autoRefreshHandler
    simp [h401, ht, hurl, hp, hslot, emailRefresh, Except.map, hf]
  · exact fun st2 resp2 rres2 f2 =>
      autoRefreshHandler_result_cases host st2 resp2 rres2 f2

/-- Witness for C6: replay transport down, original 401 returned. -/
theorem replay_failure_swallowed_witness :
    (autoRefreshHandler "https://api.example.com" sampleGuardStateCaptured sample401
        (.json { ok := true, tokens := some "A2" }) sampleFetchFail).result
        = sample401 ∧
    (∀ (st2 : GuardState) (resp2 : Response) (rres2 : RefreshResult)
        (f2 : ReplayCall → Except JsError Response),
      (autoRefreshHandler "https://api.example.com" st2 resp2 rres2 f2).result
          = resp2 ∨
      ∃ rc, (autoRefreshHandler "https://api.example.com" st2 resp2 rres2 f2).replay
            = some rc ∧
        f2 rc = .ok
          ((autoRefreshHandler "https://api.example.com" st2 resp2 rres2 f2).result)) :=
  replay_failure_swallowed "https://api.example.com" sampleGuardStateCaptured
    sample401 { ok := true, tokens := some "A2" } sampleCaptured
    (.other "network error") sampleFetchFail
    (by decide) (by decide) (by decide) (by decide) (by decide) (fun _ => rfl)

/-- C7 counterexample: the first call throws a 401 `KodzeroApiError`
with auth configured, a refresh token held and no pending ticket, and
the directly triggered refresh itself rejects: `fn` is invoked once —
not retried — and the caller receives the refresh error instead of the
original one, refuting "fn is retried exactly once". -/
theorem withRetry_counterexample :
    (withRetry (T := Nat) { access := "A1", refresh := "R1" } true false
        (.error sample401Error) (.ok 7)
        (.throw (.other "refresh network error"))).fnCalls = 1 ∧
    ¬((withRetry (T := Nat) { access := "A1", refresh := "R1" } true false
        (.error sample401Error) (.ok 7)
        (.throw (.other "refresh network error"))).fnCalls = 2) ∧
    (withRetry (T := Nat) { access := "A1", refresh := "R1" } true false
        (.error sample401Error) (.ok 7)
        (.throw (.other "refresh network error"))).result
      = .error (.other "refresh network error") :=
  ⟨by decide, by decide, rfl⟩

/-- C7 (amended): `withRetry` re-invokes `fn` at most once. A first
success returns as is; a non-retryable first error propagates
unchanged; on a 401 `KodzeroApiError` with auth configured and a
refresh token held, `fn` is retried exactly once after awaiting the
pending ticket (rejections swallowed) or after a directly triggered
refresh that resolves, and whatever the retried call produces —
including a second authorization failure — propagates unchanged; but
when the directly triggered refresh itself rejects, the refresh error
propagates and `fn` is not retried. -/
theorem withRetry_single_retry {T : Type} (tokens : TokensManagerClass)
    (authExists pending : Bool) (fn1 fn2 : Except JsError T)
    (rres : RefreshResult) :
    (withRetry tokens authExists pending fn1 fn2 rres).fnCalls ≤ 2 ∧
    (∀ v, fn1 = .ok v →
      withRetry tokens authExists pending fn1 fn2 rres
        = ⟨.ok v, 1, false, tokens⟩) ∧
    (∀ e, fn1 = .error e → retryCondition tokens authExists e = false →
      withRetry tokens authExists pending fn1 fn2 rres
        = ⟨.error e, 1, false, tokens⟩) ∧
    (∀ e, fn1 = .error e → retryCondition tokens authExists e = true →
      pending = true →
      withRetry tokens authExists pending fn1 fn2 rres
        = ⟨fn2, 2, false, tokens⟩) ∧
    (∀ e j, fn1 = .error e → retryCondition tokens authExists e = true →
      pending = false → rres = .json j →
      (withRetry tokens authExists pending fn1 fn2 rres).result = fn2 ∧
      (withRetry tokens authExists pending fn1 fn2 rres).fnCalls = 2) ∧
    (∀ e e2, fn1 = .error e → retryCondition tokens authExists e = true →
      pending = false → rres = .throw e2 →
      withRetry tokens authExists pending fn1 fn2 rres
        = ⟨.error e2, 1, true, tokens⟩) := by
  refine ⟨?_, ?_, ?_, ?_, ?_, ?_⟩
  · cases fn1 with
    | ok v => exact (by omega : (1 : Nat) ≤ 2)
    | error e =>
        unfold withRetry
        by_cases hc : retryCondition tokens authExists e = true
        · simp only [hc, if_true]
          cases pending with
          | true => simp
          | false =>
              rcases h : emailRefresh tokens rres with e2 | p
              · simp [h]
              · simp [h]
        · simp [hc]
  · intro v hv
    subst hv
    rfl
  · intro e hv hc
    subst hv
    simp [withRetry, hc]
  · intro e hv hc hpend
    subst hv
    subst hpend
    simp [withRetry, hc]
  · intro e j hv hc hpend hr
    subst hv
    subst hpend
    subst hr
    simp [withRetry, hc, emailRefresh]
  · intro e e2 hv hc hpend hr
    subst hv
    subst hpend
    subst hr
    simp [withRetry, hc, emailRefresh]

/-- Witness for the amended C7: first call throws the sample 401 error,
no pending ticket, refresh resolves issuing A2, retry succeeds. -/
theorem withRetry_single_retry_witness :
    ((withRetry (T := Nat) { access := "A1", refresh := "R1" } true false
        (.error sample401Error) (.ok 7) sampleRefreshOk).fnCalls ≤ 2 ∧
     (∀ v, (.error sample401Error : Except JsError Nat) = .ok v →
       withRetry { access := "A1", refresh := "R1" } true false
          (.error sample401Error) (.ok 7) sampleRefreshOk
          = ⟨.ok v, 1, false, { access := "A1", refresh := "R1" }⟩) ∧
     (∀ e, (.error sample401Error : Except JsError Nat) = .error e →
       retryCondition { access := "A1", refresh := "R1" } true e = false →
       withRetry { access := "A1", refresh := "R1" } true false
          (.error sample401Error) (.ok 7) sampleRefreshOk
          = ⟨.error e, 1, false, { access := "A1", refresh := "R1" }⟩) ∧
     (∀ e, (.error sample401Error : Except JsError Nat) = .error e →
       retryCondition { access := "A1", refresh := "R1" } true e = true →
       false = true →
       withRetry { access := "A1", refresh := "R1" } true false
          (.error sample401Error) (.ok 7) sampleRefreshOk
          = ⟨.ok 7, 2, false, { access := "A1", refresh := "R1" }⟩) ∧
     (∀ e j, (.error sample401Error : Except JsError Nat) = .error e →
       retryCondition { access := "A1", refresh := "R1" } true e = true →
       false = false → sampleRefreshOk = .json j →
       (withRetry { access := "A1", refresh := "R1" } true false
          (.error sample401Error) (.ok 7) sampleRefreshOk).result = .ok 7 ∧
       (withRetry { access := "A1", refresh := "R1" } true false
          (.error sample401Error) (.ok 7) sampleRefreshOk).fnCalls = 2) ∧
     (∀ e e2, (.error sample401Error : Except JsError Nat) = .error e →
       retryCondition { access := "A1", refresh := "R1" } true e = true →
       false = false → sampleRefreshOk = .throw e2 →
       withRetry { access := "A1", refresh := "R1" } true false
          (.error sample401Error) (.ok 7) sampleRefreshOk
          = ⟨.error e2, 1, true, { access := "A1", refresh := "R1" }⟩)) :=
  withRetry_single_retry { access := "A1", refresh := "R1" } true false
    (.error sample401Error) (.ok 7) sampleRefreshOk


end Kodzero
